import Mathlib

/-!
Verification of the Copilot sign-in modal
(`src/crates/copilot_ui/src/sign_in.rs`).

The modal is a status-driven render state machine.  We embed the state
struct `CopilotCodeVerification`, the constructor `new`, the subscription
callback installed by `new`, `set_status`, and the `Render` implementation
as pure Lean functions.  Host-side effects (dismiss events, notifications,
URL opens, clipboard and settings writes) are returned as an explicit
effect list; host-side inputs read during render (the clipboard, the
global copilot-enabled setting) are passed in as a `World` value, mirroring
that the source reads them fresh from the context on every render.
-/

/-- Device-flow data handed to the modal while signing in.  The source type
`copilot::request::PromptUserDeviceFlow` lives outside `src/`; the two
fields below are the ones `sign_in.rs` reads. -/
structure PromptUserDeviceFlow where
  user_code : String
  verification_uri : String
deriving DecidableEq, Repr

/-- Authentication status of the Copilot connection.  The five variants
named in `sign_in.rs` (`SigningIn`, `Unauthorized`, `Authorized`,
`Disabled`, `Error`) are taken from its match arms.  Modelled from the
spec: the `copilot` crate that declares the full `Status` enum is not under
`src/`; following spec section 3, every remaining, non-enumerated variant
(for example a signed-out or starting state) is collapsed into one `other`
constructor carrying a distinguishing tag. -/
inductive Status where
  | signingIn (prompt : Option PromptUserDeviceFlow)
  | unauthorized
  | authorized
  | disabled
  | error (message : String)
  | other (tag : String)
deriving DecidableEq, Repr

/-- Host-side effects the modal can issue through its view context. -/
inductive Effect where
  | notify
  | emitDismiss
  | openUrl (url : String)
  | writeClipboard (text : String)
  | refresh
  | updateSettingsFile (show_copilot_suggestions : Option Bool)
deriving DecidableEq, Repr

/-- What a click (or mouse-down) handler attached to a rendered element
does.  Each constructor corresponds to one closure in the source; its
semantics is given by `run_click` below. -/
inductive ClickAction where
  | connect (verification_uri : String)
  | dismissDone
  | subscribeOnGitHub
  | copyUserCode (user_code : String)
  | enableCopilot
deriving DecidableEq, Repr

/-- Shallow element tree for the rendered views: only the structure and
the data the spec talks about (headlines, labels, buttons with their
handlers, the clickable device-code row, the logo) are kept; purely
presentational styling is dropped. -/
inductive Element where
  | headline (text : String)
  | label (text : String)
  | button (id : String) (text : String) (on_click : ClickAction)
  | svg (path : String)
  | emptyDiv
  | flexChild (child : Element)
  | h_flex_clickable (on_mouse_down : ClickAction) (left : Element) (right : Element)
  | v_flex (children : List Element)

/-- Host-side state read (not written) during a render: the clipboard
contents and the global copilot-enabled setting, both read fresh from the
context each time. -/
structure World where
  clipboard : Option String
  copilot_enabled : Bool

/-- The modal state: stored status, the one-shot connect flag, and opaque
handles for the focus handle and the settings service (`fs`).  The
subscription guard itself carries no data the claims mention. -/
structure CopilotCodeVerification where
  status : Status
  connect_clicked : Bool
  focus_handle : Nat
  fs : Nat
deriving DecidableEq, Repr

def COPILOT_SIGN_UP_URL : String := "https://github.com/features/copilot"

/-- Path of the `IconName::ZedXCopilot` logo; the concrete string is
immaterial to every claim. -/
def zedXCopilotIconPath : String := "icons/zed_x_copilot.svg"

namespace CopilotCodeVerification

/-- `CopilotCodeVerification::new`: reads the current provider status and
stores it, initialises `connect_clicked` to `false`, and installs the
subscription.  The constructor itself issues no effect. -/
def new (copilot_status : Status) (fs : Nat) (focus_handle : Nat) :
    CopilotCodeVerification × List Effect :=
  ({ status := copilot_status
     connect_clicked := false
     focus_handle := focus_handle
     fs := fs }, [])

/-- `CopilotCodeVerification::set_status`: store the status and notify. -/
def set_status (this : CopilotCodeVerification) (status : Status) :
    CopilotCodeVerification × List Effect :=
  ({ this with status := status }, [Effect.notify])

/-- The subscription callback installed in `new`: keep the modal open (via
`set_status`) for `Authorized`, `Unauthorized` and `SigningIn` (with or
without prompt); for every other status emit a dismiss event and mutate
nothing. -/
def observe_update (this : CopilotCodeVerification) (status : Status) :
    CopilotCodeVerification × List Effect :=
  match status with
  | Status.authorized | Status.unauthorized | Status.signingIn _ =>
      set_status this status
  | _ => (this, [Effect.emitDismiss])

/-- `render_device_code`: the clickable row showing the user code and the
derived Copy / Copied! label, recomputed from the clipboard each render. -/
def render_device_code (data : PromptUserDeviceFlow) (clipboard : Option String) :
    Element :=
  let copied := (clipboard.map (fun text => text == data.user_code)).getD false
  Element.h_flex_clickable (ClickAction.copyUserCode data.user_code)
    (Element.flexChild (Element.label data.user_code))
    (Element.flexChild (Element.label (if copied then "Copied!" else "Copy")))

/-- The `connect_button_label` let-binding of `render_prompting_modal`. -/
def connect_button_label (connect_clicked : Bool) : String :=
  if connect_clicked then "Waiting for connection..." else "Connect to GitHub"

/-- `render_prompting_modal`. -/
def render_prompting_modal (connect_clicked : Bool) (data : PromptUserDeviceFlow)
    (clipboard : Option String) : Element :=
  Element.v_flex
    [ Element.headline "Use GitHub Copilot in Zed."
    , Element.label "Using Copilot requires an active subscription on GitHub."
    , render_device_code data clipboard
    , Element.label "Paste this code into GitHub after clicking the button below."
    , Element.button "connect-button" (connect_button_label connect_clicked)
        (ClickAction.connect data.verification_uri) ]

/-- `render_enabled_modal`. -/
def render_enabled_modal : Element :=
  Element.v_flex
    [ Element.headline "Copilot Enabled!"
    , Element.label
        "You can update your settings or sign out from the Copilot menu in the status bar."
    , Element.button "copilot-enabled-done-button" "Done" ClickAction.dismissDone ]

/-- `render_unauthorized_modal`. -/
def render_unauthorized_modal : Element :=
  Element.v_flex
    [ Element.headline "You must have an active GitHub Copilot subscription."
    , Element.label
        "You can enable Copilot by connecting your existing license once you have subscribed or renewed your subscription."
    , Element.button "copilot-subscribe-button" "Subscribe on GitHub"
        ClickAction.subscribeOnGitHub ]

/-- `render_disabled_modal`: reads the global copilot-enabled setting fresh
and shows the actionable Enable Copilot button only when it is off. -/
def render_disabled_modal (copilot_enabled : Bool) : Element :=
  if !copilot_enabled then
    Element.v_flex
      [ Element.headline "Copilot is disabled"
      , Element.label
          "Copilot can be enabled in your settings. Enable Copilot and try again."
      , Element.button "copilot-disabled-enable-button" "Enable Copilot"
          ClickAction.enableCopilot ]
  else
    Element.v_flex
      [ Element.headline "Copilot is disabled"
      , Element.label
          "Enable Copilot in your global settings or project settings to sign in." ]

/-- `render_error_modal`: takes no argument, so the error message string
cannot flow into it. -/
def render_error_modal : Element :=
  Element.v_flex
    [ Element.headline "Copilot encountered an error"
    , Element.label "Check your Zed logs for more information." ]

/-- The `Render` implementation: selects the body from the stored status,
clearing `connect_clicked` exactly in the `Unauthorized`, `Authorized`,
`Disabled` and `Error` arms, and wraps it under the logo.  The source
render body performs no `cx.emit` or `cx.notify` call, so the effect
component is empty in every branch. -/
def render (this : CopilotCodeVerification) (w : World) :
    CopilotCodeVerification × Element × List Effect :=
  let (this, prompt) :=
    match this.status with
    | Status.signingIn (some prompt) =>
        (this, render_prompting_modal this.connect_clicked prompt w.clipboard)
    | Status.unauthorized =>
        ({ this with connect_clicked := false }, render_unauthorized_modal)
    | Status.authorized =>
        ({ this with connect_clicked := false }, render_enabled_modal)
    | Status.disabled =>
        ({ this with connect_clicked := false },
          render_disabled_modal w.copilot_enabled)
    | Status.error _ =>
        ({ this with connect_clicked := false }, render_error_modal)
    | _ => (this, Element.emptyDiv)
  (this, Element.v_flex [Element.svg zedXCopilotIconPath, prompt], [])

/-- Semantics of the click (and mouse-down) handlers, one per closure in
the source:
the connect button opens the verification URI and sets `connect_clicked`;
the Done button emits a dismiss event;
the subscribe button opens the sign-up URL;
the device-code row writes the code to the clipboard and refreshes;
the Enable Copilot button writes `show_copilot_suggestions = Some(true)`
to the settings file.  Only the connect handler touches the modal state. -/
def run_click (a : ClickAction) (this : CopilotCodeVerification) :
    CopilotCodeVerification × List Effect :=
  match a with
  | ClickAction.connect verification_uri =>
      ({ this with connect_clicked := true }, [Effect.openUrl verification_uri])
  | ClickAction.dismissDone => (this, [Effect.emitDismiss])
  | ClickAction.subscribeOnGitHub => (this, [Effect.openUrl COPILOT_SIGN_UP_URL])
  | ClickAction.copyUserCode user_code =>
      (this, [Effect.writeClipboard user_code, Effect.refresh])
  | ClickAction.enableCopilot =>
      (this, [Effect.updateSettingsFile (some true)])

/-- One delivered status followed by the re-render it requests. -/
def observe_then_render (this : CopilotCodeVerification) (status : Status)
    (w : World) : CopilotCodeVerification :=
  (render (observe_update this status).1 w).1

end CopilotCodeVerification

/-- Extracts the label of the copy control (the right child of the
clickable device-code row). -/
def copy_control_label : Element → Option String
  | Element.h_flex_clickable _ _ (Element.flexChild (Element.label l)) => some l
  | _ => none

/-- Extracts the label and handler of the connect button (the last child
of the prompting view). -/
def connect_button_of : Element → Option (String × ClickAction)
  | Element.v_flex [_, _, _, _, Element.button i l a] =>
      if i = "connect-button" then some (l, a) else none
  | _ => none

/-- Extracts the label and handler of the actionable Enable Copilot button
of the disabled view, when present. -/
def enable_button_of : Element → Option (String × ClickAction)
  | Element.v_flex [_, _, Element.button i l a] =>
      if i = "copilot-disabled-enable-button" then some (l, a) else none
  | _ => none

/-- Extracts the view-specific body rendered beneath the logo. -/
def modal_body : Element → Option Element
  | Element.v_flex [Element.svg _, body] => some body
  | _ => none

namespace CopilotCodeVerification

/-- Rendering the state produced by a render changes nothing further: the
arms that clear `connect_clicked` are the only mutating ones, and they are
idempotent. -/
theorem render_state_idem (st : CopilotCodeVerification) (w : World) :
    (render (render st w).1 w).1 = (render st w).1 := by
  rcases st with ⟨s, cc, fh, fs⟩
  cases s with
  | signingIn p => cases p <;> rfl
  | unauthorized => rfl
  | authorized => rfl
  | disabled => rfl
  | error m => rfl
  | other t => rfl

/-- The device-code row, with the derived label written as an `if` on the
propositional clipboard comparison. -/
theorem render_device_code_eq (data : PromptUserDeviceFlow)
    (clipboard : Option String) :
    render_device_code data clipboard =
      Element.h_flex_clickable (ClickAction.copyUserCode data.user_code)
        (Element.flexChild (Element.label data.user_code))
        (Element.flexChild (Element.label
          (if clipboard = some data.user_code then "Copied!" else "Copy"))) := by
  cases clipboard with
  | none => simp [render_device_code]
  | some s =>
      by_cases h : s = data.user_code <;>
        simp [render_device_code, h]

end CopilotCodeVerification

/-- C1, counterexample: a `Disabled` status pushed through the provider
subscription does trigger dismissal — the callback falls into the wildcard
arm and emits a dismiss event, leaving the stored status untouched instead
of rendering the Disabled view. -/
theorem c1_pushed_disabled_dismisses_cex :
    (CopilotCodeVerification.observe_update
        ⟨Status.authorized, false, 0, 0⟩ Status.disabled).2 =
      [Effect.emitDismiss] ∧
    (CopilotCodeVerification.observe_update
        ⟨Status.authorized, false, 0, 0⟩ Status.disabled).1 =
      ⟨Status.authorized, false, 0, 0⟩ :=
  ⟨rfl, rfl⟩

/-- C1 (amended): the subscription callback emits a dismiss event exactly
when the pushed status is outside the three kept-open variants
`Authorized`, `Unauthorized` and `SigningIn`; in particular a pushed
`Disabled` status dismisses the modal without mutating it.  (The Disabled
view is reachable only when `Disabled` was the status read at
construction.) -/
theorem c1_observe_update_dismiss_characterization :
    (∀ (st : CopilotCodeVerification) (s : Status),
      Effect.emitDismiss ∈ (CopilotCodeVerification.observe_update st s).2 ↔
        ¬ (s = Status.authorized ∨ s = Status.unauthorized ∨
            ∃ p, s = Status.signingIn p)) ∧
    (∀ st : CopilotCodeVerification,
      CopilotCodeVerification.observe_update st Status.disabled =
        (st, [Effect.emitDismiss])) := by
  constructor
  · intro st s
    cases s <;>
      simp [CopilotCodeVerification.observe_update,
        CopilotCodeVerification.set_status]
  · intro st
    rfl

/-- C2, counterexample: constructing the modal while the provider is in a
non-enumerated status (modelled tag "SignedOut") emits no dismiss signal
at all — the constructor stores the status and the modal stays open
holding it. -/
theorem c2_construct_with_other_status_cex :
    (CopilotCodeVerification.new (Status.other "SignedOut") 0 0).2 = [] ∧
    (CopilotCodeVerification.new (Status.other "SignedOut") 0 0).1.status =
      Status.other "SignedOut" :=
  ⟨rfl, rfl⟩

/-- C2 (amended): a non-enumerated status received as a subscription
update yields exactly one dismiss event and no state mutation; but
constructing the modal with such a status emits nothing and stores the
status, and the modal then renders with an empty body beneath the logo. -/
theorem c2_other_status_update_dismisses_construct_stores :
    (∀ (st : CopilotCodeVerification) (tag : String),
      CopilotCodeVerification.observe_update st (Status.other tag) =
        (st, [Effect.emitDismiss])) ∧
    (∀ (tag : String) (fs fh : Nat),
      CopilotCodeVerification.new (Status.other tag) fs fh =
        (⟨Status.other tag, false, fh, fs⟩, [])) ∧
    (∀ (tag : String) (cc : Bool) (fh fs : Nat) (w : World),
      (CopilotCodeVerification.render ⟨Status.other tag, cc, fh, fs⟩ w).2.1 =
        Element.v_flex [Element.svg zedXCopilotIconPath, Element.emptyDiv]) :=
  ⟨fun _ _ => rfl, fun _ _ _ => rfl, fun _ _ _ _ _ => rfl⟩

/-- C3, counterexample: a concrete trace — construct while prompting,
click Connect (setting the flag), receive a `SigningIn` update whose
prompt is absent, render — after which `connect_clicked` is still `true`
although the stored status is no longer SigningIn-with-present-prompt:
the render wildcard arm does not clear the flag. -/
theorem c3_stale_connect_clicked_cex :
    (CopilotCodeVerification.observe_then_render
        (CopilotCodeVerification.run_click
          (ClickAction.connect "https://github.com/login/device")
          (CopilotCodeVerification.new
            (Status.signingIn
              (some ⟨"ABCD-1234", "https://github.com/login/device"⟩)) 0 0).1).1
        (Status.signingIn none) ⟨none, true⟩).connect_clicked = true ∧
    (CopilotCodeVerification.observe_then_render
        (CopilotCodeVerification.run_click
          (ClickAction.connect "https://github.com/login/device")
          (CopilotCodeVerification.new
            (Status.signingIn
              (some ⟨"ABCD-1234", "https://github.com/login/device"⟩)) 0 0).1).1
        (Status.signingIn none) ⟨none, true⟩).status = Status.signingIn none :=
  ⟨rfl, rfl⟩

/-- C3 (amended): rendering clears `connect_clicked` exactly in the
`Unauthorized`, `Authorized`, `Disabled` and `Error` arms; for
SigningIn-with-absent-prompt and for non-enumerated statuses the wildcard
arm leaves the flag unchanged, so it can stay `true` there, and the
prompting arm also leaves it unchanged. -/
theorem c3_render_connect_clicked_reset_characterization :
    (∀ (cc : Bool) (fh fs : Nat) (w : World),
      (CopilotCodeVerification.render ⟨Status.unauthorized, cc, fh, fs⟩
          w).1.connect_clicked = false) ∧
    (∀ (cc : Bool) (fh fs : Nat) (w : World),
      (CopilotCodeVerification.render ⟨Status.authorized, cc, fh, fs⟩
          w).1.connect_clicked = false) ∧
    (∀ (cc : Bool) (fh fs : Nat) (w : World),
      (CopilotCodeVerification.render ⟨Status.disabled, cc, fh, fs⟩
          w).1.connect_clicked = false) ∧
    (∀ (m : String) (cc : Bool) (fh fs : Nat) (w : World),
      (CopilotCodeVerification.render ⟨Status.error m, cc, fh, fs⟩
          w).1.connect_clicked = false) ∧
    (∀ (cc : Bool) (fh fs : Nat) (w : World),
      (CopilotCodeVerification.render ⟨Status.signingIn none, cc, fh, fs⟩
          w).1.connect_clicked = cc) ∧
    (∀ (tag : String) (cc : Bool) (fh fs : Nat) (w : World),
      (CopilotCodeVerification.render ⟨Status.other tag, cc, fh, fs⟩
          w).1.connect_clicked = cc) ∧
    (∀ (p : PromptUserDeviceFlow) (cc : Bool) (fh fs : Nat) (w : World),
      (CopilotCodeVerification.render ⟨Status.signingIn (some p), cc, fh, fs⟩
          w).1.connect_clicked = cc) :=
  ⟨fun _ _ _ _ => rfl, fun _ _ _ _ => rfl, fun _ _ _ _ => rfl,
    fun _ _ _ _ _ => rfl, fun _ _ _ _ => rfl, fun _ _ _ _ _ => rfl,
    fun _ _ _ _ _ => rfl⟩

/-- C4: in the prompting view the copy-control label is "Copied!" exactly
when the freshly read clipboard text equals the user code (an absent
clipboard counts as not equal); the prompting render stores nothing — the
state is unchanged — and the rendered body is a pure function of the
stored prompt and the clipboard passed in at render time. -/
theorem c4_copy_label_iff_clipboard_matches :
    (∀ (data : PromptUserDeviceFlow) (clipboard : Option String),
      copy_control_label
          (CopilotCodeVerification.render_device_code data clipboard) =
        some "Copied!" ↔ clipboard = some data.user_code) ∧
    (∀ (data : PromptUserDeviceFlow) (clipboard : Option String),
      copy_control_label
          (CopilotCodeVerification.render_device_code data clipboard) =
        some "Copy" ↔ clipboard ≠ some data.user_code) ∧
    (∀ (p : PromptUserDeviceFlow) (cc : Bool) (fh fs : Nat) (w : World),
      (CopilotCodeVerification.render ⟨Status.signingIn (some p), cc, fh, fs⟩
          w).1 = ⟨Status.signingIn (some p), cc, fh, fs⟩) ∧
    (∀ (p : PromptUserDeviceFlow) (cc : Bool) (fh fs : Nat) (w : World),
      (CopilotCodeVerification.render ⟨Status.signingIn (some p), cc, fh, fs⟩
          w).2.1 =
        Element.v_flex [Element.svg zedXCopilotIconPath,
          CopilotCodeVerification.render_prompting_modal cc p w.clipboard]) := by
  refine ⟨?_, ?_, fun _ _ _ _ _ => rfl, fun _ _ _ _ _ => rfl⟩
  · intro data clipboard
    rw [CopilotCodeVerification.render_device_code_eq]
    by_cases h : clipboard = some data.user_code <;> simp [copy_control_label, h]
  · intro data clipboard
    rw [CopilotCodeVerification.render_device_code_eq]
    by_cases h : clipboard = some data.user_code <;> simp [copy_control_label, h]

/-- C5: the connect button of the prompting view carries the handler that
opens `verification_uri`; running that handler sets `connect_clicked` to
`true` and issues exactly one URL-open effect with that URI while touching
no other field; a render with the flag set labels the button "Waiting for
connection..." (and with it clear, "Connect to GitHub"), and the prompting
render preserves the state, so the label persists while the status is
unchanged. -/
theorem c5_connect_click_opens_uri_once :
    (∀ (st : CopilotCodeVerification) (url : String),
      CopilotCodeVerification.run_click (ClickAction.connect url) st =
        ({ st with connect_clicked := true }, [Effect.openUrl url])) ∧
    (∀ (cc : Bool) (p : PromptUserDeviceFlow) (clipboard : Option String),
      connect_button_of
          (CopilotCodeVerification.render_prompting_modal cc p clipboard) =
        some (CopilotCodeVerification.connect_button_label cc,
          ClickAction.connect p.verification_uri)) ∧
    (CopilotCodeVerification.connect_button_label true =
        "Waiting for connection..." ∧
      CopilotCodeVerification.connect_button_label false =
        "Connect to GitHub") ∧
    (∀ (p : PromptUserDeviceFlow) (fh fs : Nat) (w : World),
      (CopilotCodeVerification.render ⟨Status.signingIn (some p), true, fh, fs⟩
          w).1 = ⟨Status.signingIn (some p), true, fh, fs⟩) := by
  refine ⟨fun _ _ => rfl, ?_, ⟨rfl, rfl⟩, fun _ _ _ _ => rfl⟩
  intro cc p clipboard
  simp [CopilotCodeVerification.render_prompting_modal, connect_button_of,
    CopilotCodeVerification.render_device_code]

/-- C6: the disabled view carries the actionable "Enable Copilot" button
exactly when the copilot-enabled setting, read at render time, is off —
also through the full render, where the setting is taken fresh from the
world; when the setting is on, the fallback body holds no button at all;
running the button handler writes `show_copilot_suggestions = Some(true)`
to the settings file exactly once and leaves the whole modal state (its
stored status included) unchanged. -/
theorem c6_disabled_view_enable_button :
    (∀ b : Bool,
      enable_button_of (CopilotCodeVerification.render_disabled_modal b) =
        if b then none
        else some ("Enable Copilot", ClickAction.enableCopilot)) ∧
    (∀ (cc : Bool) (fh fs : Nat) (w : World),
      (modal_body
          ((CopilotCodeVerification.render ⟨Status.disabled, cc, fh, fs⟩
            w).2.1)).bind enable_button_of =
        if w.copilot_enabled then none
        else some ("Enable Copilot", ClickAction.enableCopilot)) ∧
    (CopilotCodeVerification.render_disabled_modal true =
      Element.v_flex
        [ Element.headline "Copilot is disabled"
        , Element.label
            "Enable Copilot in your global settings or project settings to sign in." ]) ∧
    (∀ st : CopilotCodeVerification,
      CopilotCodeVerification.run_click ClickAction.enableCopilot st =
        (st, [Effect.updateSettingsFile (some true)])) := by
  refine ⟨?_, ?_, rfl, fun _ => rfl⟩
  · intro b
    cases b <;>
      simp [CopilotCodeVerification.render_disabled_modal, enable_button_of]
  · intro cc fh fs w
    rcases w with ⟨clip, ce⟩
    cases ce <;>
      simp [CopilotCodeVerification.render,
        CopilotCodeVerification.render_disabled_modal, modal_body,
        enable_button_of]

/-- C7: delivering the same status twice through the subscription callback
leaves the modal state equal to delivering it once, both for the callback
alone and for the callback followed by the re-render it requests; in
particular after a delivered `Authorized` plus render, `connect_clicked`
is `false`, so a redundant re-delivery merely re-clears an already clear
flag. -/
theorem c7_redundant_status_delivery_idempotent :
    (∀ (st : CopilotCodeVerification) (s : Status),
      (CopilotCodeVerification.observe_update
          (CopilotCodeVerification.observe_update st s).1 s).1 =
        (CopilotCodeVerification.observe_update st s).1) ∧
    (∀ (st : CopilotCodeVerification) (s : Status) (w : World),
      CopilotCodeVerification.observe_then_render
          (CopilotCodeVerification.observe_then_render st s w) s w =
        CopilotCodeVerification.observe_then_render st s w) ∧
    (∀ (st : CopilotCodeVerification) (w : World),
      (CopilotCodeVerification.observe_then_render st Status.authorized
          w).connect_clicked = false) := by
  refine ⟨?_, ?_, fun st w => rfl⟩
  · intro st s
    cases s <;> rfl
  · intro st s w
    rcases st with ⟨stt, cc, fh, fs⟩
    cases s with
    | signingIn p => cases p <;> rfl
    | unauthorized => rfl
    | authorized => rfl
    | disabled => exact CopilotCodeVerification.render_state_idem _ w
    | error m => exact CopilotCodeVerification.render_state_idem _ w
    | other t => exact CopilotCodeVerification.render_state_idem _ w

/-- C8: the error view is independent of the error message — rendering
with `Error(m1)` and `Error(m2)` produces the same element tree for any
two messages, and that tree is exactly the generic check-your-logs notice
beneath the logo, so the message string never flows into the output. -/
theorem c8_error_message_not_rendered :
    (∀ (m1 m2 : String) (cc : Bool) (fh fs : Nat) (w : World),
      (CopilotCodeVerification.render ⟨Status.error m1, cc, fh, fs⟩ w).2.1 =
        (CopilotCodeVerification.render ⟨Status.error m2, cc, fh, fs⟩ w).2.1) ∧
    (∀ (m : String) (cc : Bool) (fh fs : Nat) (w : World),
      (CopilotCodeVerification.render ⟨Status.error m, cc, fh, fs⟩ w).2.1 =
        Element.v_flex
          [ Element.svg zedXCopilotIconPath
          , Element.v_flex
              [ Element.headline "Copilot encountered an error"
              , Element.label "Check your Zed logs for more information." ] ]) :=
  ⟨fun _ _ _ _ _ _ => rfl, fun _ _ _ _ _ => rfl⟩

/-- C9: `set_status` stores the new status and requests a notification,
and nothing else: `connect_clicked`, the focus handle and the settings
handle are untouched for every status; the subscription callback likewise
never touches `connect_clicked`, so any clearing of the flag happens only
later, inside `render`. -/
theorem c9_set_status_frame :
    (∀ (st : CopilotCodeVerification) (s : Status),
      (CopilotCodeVerification.set_status st s).1.status = s ∧
      (CopilotCodeVerification.set_status st s).1.connect_clicked =
        st.connect_clicked ∧
      (CopilotCodeVerification.set_status st s).1.focus_handle =
        st.focus_handle ∧
      (CopilotCodeVerification.set_status st s).1.fs = st.fs ∧
      (CopilotCodeVerification.set_status st s).2 = [Effect.notify]) ∧
    (∀ (st : CopilotCodeVerification) (s : Status),
      (CopilotCodeVerification.observe_update st s).1.connect_clicked =
        st.connect_clicked) := by
  refine ⟨fun st s => ⟨rfl, rfl, rfl, rfl, rfl⟩, ?_⟩
  intro st s
  cases s <;> rfl

/-- C10: rendering is total (the embedding is a total function) and, for a
stored status outside the five named variants as well as for SigningIn
with an absent prompt, produces the logo above an empty body, leaves the
state untouched and issues no effect — in particular no dismiss event. -/
theorem c10_render_catchall_empty_body :
    (∀ (tag : String) (cc : Bool) (fh fs : Nat) (w : World),
      CopilotCodeVerification.render ⟨Status.other tag, cc, fh, fs⟩ w =
        (⟨Status.other tag, cc, fh, fs⟩,
          Element.v_flex [Element.svg zedXCopilotIconPath, Element.emptyDiv],
          [])) ∧
    (∀ (cc : Bool) (fh fs : Nat) (w : World),
      CopilotCodeVerification.render ⟨Status.signingIn none, cc, fh, fs⟩ w =
        (⟨Status.signingIn none, cc, fh, fs⟩,
          Element.v_flex [Element.svg zedXCopilotIconPath, Element.emptyDiv],
          [])) :=
  ⟨fun _ _ _ _ _ => rfl, fun _ _ _ _ => rfl⟩
